import Mathlib

/-!
Shallow embedding of the widget tree and event handlers of the
disney-streaming-clone repository (src/main.rs, src/root_widget.rs,
src/content_set.rs).

The three widgets `RootWidget`, `ContentSet` and `Thumbnail` are modelled as
plain structures; their `on_event` handlers are pure functions from a widget
state and an event to the new state together with a `Ctx` record collecting
the side-effect requests issued through `EventCtx`
(`submit_command`, `request_anim_frame`, `request_layout`,
`request_pan_to_this`, `request_focus`, `skip_child`).  `usize` is modelled
as `Nat` with explicit saturation at `2^64 - 1` for `saturating_add`
(`Nat` subtraction already saturates at 0, matching `saturating_sub`).
`PromiseToken<T>` is modelled as `Option Nat` (`none` = `PromiseToken::empty()`),
and `PromiseResult::try_get` as a token comparison plus payload-kind match.
Out-of-scope collaborators (WebImage, Spinner, Label, layout, paint, network
fetch) are modelled as inert leaves, exactly as the spec scopes them out.
-/

/-- `usize::MAX` on the 64-bit targets the program is built for. -/
def USIZE_MAX : Nat := 2 ^ 64 - 1

/-- Rust `usize::saturating_add`. -/
def saturating_add (a b : Nat) : Nat := min (a + b) USIZE_MAX

/-- Rust `usize::saturating_sub`; on `Nat` truncated subtraction already
saturates at zero. -/
def saturating_sub (a b : Nat) : Nat := a - b

/-- `ContentSetMetadata` from src/content_set.rs. -/
structure ContentSetMetadata where
  title : String
  ref_id : String
deriving DecidableEq

/-- `Thumbnail` from src/main.rs: fixed grid identity, the inner `WebImage`
(kept as its url), the `selected` flag and the animation counter. -/
structure Thumbnail where
  row : Nat
  column : Nat
  inner : String
  selected : Bool
  selected_progress : Nat
deriving DecidableEq

/-- `Thumbnail::new`. -/
def Thumbnail.new (row column : Nat) (thumbnail_url : String) : Thumbnail :=
  { row := row, column := column, inner := thumbnail_url,
    selected := false, selected_progress := 0 }

/-- A child of the `Flex` owned by a `ContentSet`: the title `Label`, the
`Spinner` placeholder, or the `ClipBox` holding the row of thumbnails. -/
inductive RowChild where
  | label (text : String)
  | spinner
  | clipbox (thumbs : List Thumbnail)
deriving DecidableEq

/-- `ContentSet` from src/content_set.rs. -/
structure ContentSet where
  row : Nat
  data : ContentSetMetadata
  children_promise : Option Nat
  children : List RowChild
deriving DecidableEq

/-- `ContentSet::new`: title label plus spinner placeholder, empty promise. -/
def ContentSet.new (row : Nat) (data : ContentSetMetadata) : ContentSet :=
  { row := row, data := data, children_promise := none,
    children := [RowChild.label data.title, RowChild.spinner] }

/-- A child of the `Flex` owned by `RootWidget`: the `Spinner` placeholder or
a `ContentSet` row. -/
inductive RootChild where
  | spinner
  | contentSet (cs : ContentSet)
deriving DecidableEq

/-- `RootWidget` from src/root_widget.rs / src/main.rs. -/
structure RootWidget where
  children_promise : Option Nat
  children : List RootChild
  selected_item : Nat × Nat
deriving DecidableEq

/-- `RootWidget::new`: spinner placeholder, empty promise, selection (0,0). -/
def RootWidget.new : RootWidget :=
  { children_promise := none, children := [RootChild.spinner],
    selected_item := (0, 0) }

/-- Keys relevant to `RootWidget::on_event`; every other key is `other`. -/
inductive Key where
  | arrowDown
  | arrowLeft
  | arrowRight
  | arrowUp
  | other (name : String)
deriving DecidableEq

/-- The `key` field of a `KeyEvent`. -/
structure KeyEvent where
  key : Key
deriving DecidableEq

/-- Commands travelling on the event stream: the two selectors defined by the
program, plus opaque foreign commands. -/
inductive Command where
  | changeSelectedItem (coord : Nat × Nat)
  | requestFocus
  | otherCmd (name : String)
deriving DecidableEq

/-- The payload of a background-computation completion: the row records
consumed by `RootWidget` or the tile urls consumed by `ContentSet`. -/
inductive PromisePayload where
  | rows (records : List ContentSetMetadata)
  | tiles (urls : List String)
deriving DecidableEq

/-- A `PromiseResult`: slot tag plus payload. -/
structure PromiseResult where
  token : Nat
  payload : PromisePayload
deriving DecidableEq

/-- `result.try_get(tok)` for a `PromiseToken<Vec<ContentSetMetadata>>`:
matches when the tag equals a live token and the payload is a row list. -/
def PromiseResult.tryGetRows (result : PromiseResult) (tok : Option Nat) :
    Option (List ContentSetMetadata) :=
  match tok, result.payload with
  | some t, PromisePayload.rows records =>
      if result.token = t then some records else none
  | _, _ => none

/-- `result.try_get(tok)` for a `PromiseToken<Vec<String>>`. -/
def PromiseResult.tryGetTiles (result : PromiseResult) (tok : Option Nat) :
    Option (List String) :=
  match tok, result.payload with
  | some t, PromisePayload.tiles urls =>
      if result.token = t then some urls else none
  | _, _ => none

/-- The events handled by the widgets' `on_event` methods. -/
inductive Event where
  | promiseResult (result : PromiseResult)
  | keyDown (key_event : KeyEvent)
  | command (cmd : Command)
  | animFrame (interval : Nat)
  | otherEvent
deriving DecidableEq

/-- The side-effect requests a handler issues through its `EventCtx`. -/
structure Ctx where
  submittedCommands : List Command
  animFrameRequested : Bool
  layoutRequested : Bool
  panToThisRequested : Bool
  focusRequested : Bool
  childSkipped : Bool
deriving DecidableEq

/-- A `Ctx` in which nothing was requested. -/
def Ctx.empty : Ctx :=
  { submittedCommands := [], animFrameRequested := false,
    layoutRequested := false, panToThisRequested := false,
    focusRequested := false, childSkipped := false }

/-- Accumulate the requests of two handler calls. -/
def Ctx.merge (a b : Ctx) : Ctx :=
  { submittedCommands := a.submittedCommands ++ b.submittedCommands,
    animFrameRequested := a.animFrameRequested || b.animFrameRequested,
    layoutRequested := a.layoutRequested || b.layoutRequested,
    panToThisRequested := a.panToThisRequested || b.panToThisRequested,
    focusRequested := a.focusRequested || b.focusRequested,
    childSkipped := a.childSkipped || b.childSkipped }

/-- `Thumbnail::on_event` (src/main.rs lines 310-346).  The inner `WebImage`
is inert, so the trailing `self.inner.on_event` contributes nothing. -/
def Thumbnail.on_event (self : Thumbnail) (event : Event) : Thumbnail × Ctx :=
  match event with
  | Event.command (Command.changeSelectedItem (row, col)) =>
      if (row, col) = (self.row, self.column) then
        ({ self with selected := true },
         { Ctx.empty with animFrameRequested := true, layoutRequested := true,
                          panToThisRequested := true })
      else if self.selected then
        ({ self with selected := false },
         { Ctx.empty with animFrameRequested := true, layoutRequested := true })
      else
        (self, Ctx.empty)
  | Event.animFrame _ =>
      if self.selected then
        if self.selected_progress < 5 then
          ({ self with selected_progress := self.selected_progress + 1 },
           { Ctx.empty with animFrameRequested := true, layoutRequested := true })
        else
          (self, Ctx.empty)
      else
        if self.selected_progress > 0 then
          ({ self with selected_progress := self.selected_progress - 1 },
           { Ctx.empty with animFrameRequested := true, layoutRequested := true })
        else
          (self, Ctx.empty)
  | _ => (self, Ctx.empty)

/-- Event dispatch into one child of the `ContentSet` flex: `Label` and
`Spinner` are inert; the `ClipBox` forwards to each `Thumbnail`. -/
def RowChild.on_event (c : RowChild) (event : Event) : RowChild × Ctx :=
  match c with
  | RowChild.label t => (RowChild.label t, Ctx.empty)
  | RowChild.spinner => (RowChild.spinner, Ctx.empty)
  | RowChild.clipbox thumbs =>
      let results := thumbs.map (fun t => t.on_event event)
      (RowChild.clipbox (results.map Prod.fst),
       (results.map Prod.snd).foldl Ctx.merge Ctx.empty)

/-- The trailing `self.children.on_event(ctx, event, env)` of
`ContentSet::on_event`: dispatch the event into each flex child, merging the
requests into the node's own `ctx`. -/
def ContentSet.forwardToChildren (self : ContentSet) (event : Event)
    (own : Ctx) : ContentSet × Ctx :=
  let results := self.children.map (fun c => c.on_event event)
  ({ self with children := results.map Prod.fst },
   (results.map Prod.snd).foldl Ctx.merge own)

/-- `ContentSet::on_event` (src/content_set.rs lines 64-95): on a completion
event matching its own slot, clear the flex and rebuild it as the title label
followed by a `ClipBox` row of one `Thumbnail` per url (columns in payload
order), then `skip_child` and return; every other event is forwarded. -/
def ContentSet.on_event (self : ContentSet) (event : Event) :
    ContentSet × Ctx :=
  match event with
  | Event.promiseResult result =>
      match result.tryGetTiles self.children_promise with
      | some children =>
          let row := self.row
          let title := self.data.title
          ({ self with children :=
              [RowChild.label title,
               RowChild.clipbox (children.enum.map
                 (fun p => Thumbnail.new row p.1 p.2))] },
           { Ctx.empty with childSkipped := true })
      | none => self.forwardToChildren event Ctx.empty
  | _ => self.forwardToChildren event Ctx.empty

/-- Event dispatch into one child of the root flex. -/
def RootChild.on_event (c : RootChild) (event : Event) : RootChild × Ctx :=
  match c with
  | RootChild.spinner => (RootChild.spinner, Ctx.empty)
  | RootChild.contentSet cs =>
      let r := cs.on_event event
      (RootChild.contentSet r.1, r.2)

/-- The trailing `self.children.on_event(ctx, event, env)` of
`RootWidget::on_event`. -/
def RootWidget.forwardToChildren (self : RootWidget) (event : Event)
    (own : Ctx) : RootWidget × Ctx :=
  let results := self.children.map (fun c => c.on_event event)
  ({ self with children := results.map Prod.fst },
   (results.map Prod.snd).foldl Ctx.merge own)

/-- The `Event::KeyDown` arm of `RootWidget::on_event` (src/root_widget.rs
lines 82-98): one axis moves by 1 with saturating arithmetic; other keys
leave the coordinate alone. -/
def RootWidget.stepSelectedItem (key : Key) (sel : Nat × Nat) : Nat × Nat :=
  match key with
  | Key.arrowDown => (saturating_add sel.1 1, sel.2)
  | Key.arrowLeft => (sel.1, saturating_sub sel.2 1)
  | Key.arrowRight => (sel.1, saturating_add sel.2 1)
  | Key.arrowUp => (saturating_sub sel.1 1, sel.2)
  | Key.other _ => sel

/-- `RootWidget::on_event` (src/root_widget.rs lines 55-108).  On a matching
completion event: clear the flex, add one `ContentSet` per record (rows in
payload order), `skip_child`, return.  On `KeyDown`: update the grid
coordinate and submit `CHANGE_SELECTED_ITEM` with it, then forward.  On a
`REQUEST_FOCUS` command: `request_focus`, then forward.  Everything else is
forwarded unchanged. -/
def RootWidget.on_event (self : RootWidget) (event : Event) :
    RootWidget × Ctx :=
  match event with
  | Event.promiseResult result =>
      match result.tryGetRows self.children_promise with
      | some children =>
          ({ self with children :=
              (children.enum.map
                (fun p => RootChild.contentSet (ContentSet.new p.1 p.2))) },
           { Ctx.empty with childSkipped := true })
      | none => self.forwardToChildren event Ctx.empty
  | Event.keyDown key_event =>
      let moved :=
        { self with
          selected_item := RootWidget.stepSelectedItem key_event.key
            self.selected_item }
      moved.forwardToChildren event
        { Ctx.empty with submittedCommands :=
            [Command.changeSelectedItem moved.selected_item] }
  | Event.command Command.requestFocus =>
      self.forwardToChildren event { Ctx.empty with focusRequested := true }
  | _ => self.forwardToChildren event Ctx.empty

/-- The thumbnails inside one flex child of a `ContentSet`. -/
def RowChild.thumbnails (c : RowChild) : List Thumbnail :=
  match c with
  | RowChild.clipbox thumbs => thumbs
  | _ => []

/-- All thumbnails below a `ContentSet`. -/
def ContentSet.thumbnails (cs : ContentSet) : List Thumbnail :=
  cs.children.foldr (fun c acc => c.thumbnails ++ acc) []

/-- All thumbnails below one root flex child. -/
def RootChild.thumbnails (c : RootChild) : List Thumbnail :=
  match c with
  | RootChild.contentSet cs => cs.thumbnails
  | RootChild.spinner => []

/-- All thumbnails of the whole tree. -/
def RootWidget.allThumbnails (self : RootWidget) : List Thumbnail :=
  self.children.foldr (fun c acc => c.thumbnails ++ acc) []

/-- How many thumbnails of a list are selected. -/
def countSelected (ts : List Thumbnail) : Nat :=
  (ts.filter (fun t => t.selected)).length

/-- The state part of one delivered animation-frame tick (the handler ignores
the interval argument). -/
def animTick (t : Thumbnail) : Thumbnail := (t.on_event (Event.animFrame 0)).1

/-- The state part of delivering a `CHANGE_SELECTED_ITEM` broadcast to one
thumbnail. -/
def broadcastThumb (p : Nat × Nat) (t : Thumbnail) : Thumbnail :=
  (t.on_event (Event.command (Command.changeSelectedItem p))).1

/-- The requests issued by an animating tick: another frame plus a re-layout. -/
def animCtx : Ctx :=
  { Ctx.empty with animFrameRequested := true, layoutRequested := true }

/-- The requests issued by a thumbnail that becomes (or stays) the broadcast
target: a frame, a re-layout and a pan. -/
def selectCtx : Ctx :=
  { Ctx.empty with animFrameRequested := true, layoutRequested := true,
                   panToThisRequested := true }

-- ### Helper lemmas

theorem Ctx.merge_empty (a : Ctx) : Ctx.merge a Ctx.empty = a := by
  cases a; simp [Ctx.merge, Ctx.empty]

theorem foldl_merge_empties (l : List Ctx) (a : Ctx)
    (h : ∀ c ∈ l, c = Ctx.empty) : l.foldl Ctx.merge a = a := by
  induction l generalizing a with
  | nil => rfl
  | cons c l ih =>
      have hc : c = Ctx.empty := h c (List.mem_cons_self c l)
      simp only [List.foldl_cons, hc, Ctx.merge_empty]
      exact ih a (fun x hx => h x (List.mem_cons_of_mem c hx))

theorem thumb_on_promiseResult (t : Thumbnail) (r : PromiseResult) :
    t.on_event (Event.promiseResult r) = (t, Ctx.empty) := rfl

theorem thumb_on_keyDown (t : Thumbnail) (k : KeyEvent) :
    t.on_event (Event.keyDown k) = (t, Ctx.empty) := rfl

theorem foldl_merge_map_empty {α : Type} (l : List α) (f : α → Ctx) (a : Ctx)
    (hf : ∀ x ∈ l, f x = Ctx.empty) : (l.map f).foldl Ctx.merge a = a := by
  apply foldl_merge_empties
  intro c hc
  rw [List.mem_map] at hc
  obtain ⟨x, hx, rfl⟩ := hc
  exact hf x hx

theorem rowChild_inert (c : RowChild) (e : Event)
    (h : ∀ t : Thumbnail, t.on_event e = (t, Ctx.empty)) :
    c.on_event e = (c, Ctx.empty) := by
  cases c with
  | label t => rfl
  | spinner => rfl
  | clipbox thumbs =>
      simp only [RowChild.on_event, h, List.map_map, Prod.mk.injEq]
      refine ⟨?_, ?_⟩
      · simp only [Function.comp_def]
        exact congrArg RowChild.clipbox (List.map_id thumbs)
      · exact foldl_merge_map_empty _ _ _ (fun x _ => rfl)

theorem contentSet_forward_inert (cs : ContentSet) (e : Event) (a : Ctx)
    (h : ∀ c : RowChild, c.on_event e = (c, Ctx.empty)) :
    cs.forwardToChildren e a = (cs, a) := by
  simp only [ContentSet.forwardToChildren, h, List.map_map, Prod.mk.injEq]
  refine ⟨?_, ?_⟩
  · have hmap : List.map (Prod.fst ∘ fun c => (c, Ctx.empty)) cs.children
        = cs.children := by
      simp only [Function.comp_def]
      exact List.map_id cs.children
    rw [hmap]
  · exact foldl_merge_map_empty _ _ _ (fun x _ => rfl)

theorem contentSet_on_promiseResult_none (cs : ContentSet) (r : PromiseResult)
    (h : r.tryGetTiles cs.children_promise = none) :
    cs.on_event (Event.promiseResult r) = (cs, Ctx.empty) := by
  simp only [ContentSet.on_event, h]
  exact contentSet_forward_inert cs _ Ctx.empty
    (fun c => rowChild_inert c _ (fun t => thumb_on_promiseResult t r))

theorem contentSet_on_keyDown (cs : ContentSet) (k : KeyEvent) :
    cs.on_event (Event.keyDown k) = (cs, Ctx.empty) :=
  contentSet_forward_inert cs _ Ctx.empty
    (fun c => rowChild_inert c _ (fun t => thumb_on_keyDown t k))

theorem rootChild_inert (c : RootChild) (e : Event)
    (h : ∀ cs : ContentSet, cs.on_event e = (cs, Ctx.empty)) :
    c.on_event e = (c, Ctx.empty) := by
  cases c with
  | spinner => rfl
  | contentSet cs => simp only [RootChild.on_event, h]

theorem root_forward_inert (root : RootWidget) (e : Event) (a : Ctx)
    (h : ∀ c : RootChild, c.on_event e = (c, Ctx.empty)) :
    root.forwardToChildren e a = (root, a) := by
  simp only [RootWidget.forwardToChildren, h, List.map_map, Prod.mk.injEq]
  refine ⟨?_, ?_⟩
  · have hmap : List.map (Prod.fst ∘ fun c => (c, Ctx.empty)) root.children
        = root.children := by
      simp only [Function.comp_def]
      exact List.map_id root.children
    rw [hmap]
  · exact foldl_merge_map_empty _ _ _ (fun x _ => rfl)

theorem root_on_keyDown (root : RootWidget) (k : KeyEvent) :
    root.on_event (Event.keyDown k)
      = ({ root with selected_item :=
             RootWidget.stepSelectedItem k.key root.selected_item },
         { Ctx.empty with submittedCommands :=
             [Command.changeSelectedItem
                (RootWidget.stepSelectedItem k.key root.selected_item)] }) := by
  have h : ∀ c : RootChild, c.on_event (Event.keyDown k) = (c, Ctx.empty) :=
    fun c => rootChild_inert c _ (fun cs => contentSet_on_keyDown cs k)
  simp only [RootWidget.on_event]
  exact root_forward_inert _ _ _ h

-- ### Claim C2

/-- C2: a directional key event changes exactly one axis of the grid
coordinate by ±1 with saturating arithmetic at zero: ArrowDown adds 1 to the
row, ArrowUp subtracts 1 saturating at 0, ArrowRight adds 1 to the column,
ArrowLeft subtracts 1 saturating at 0; from (0,0) an up or left input leaves
(0,0), and from (0,0) right, right, left yields (0,1). -/
theorem keydown_moves_one_axis_saturating (root : RootWidget)
    (hr : root.selected_item.1 < USIZE_MAX)
    (hc : root.selected_item.2 < USIZE_MAX) :
    ((root.on_event (Event.keyDown ⟨Key.arrowDown⟩)).1.selected_item
        = (root.selected_item.1 + 1, root.selected_item.2))
  ∧ ((root.on_event (Event.keyDown ⟨Key.arrowUp⟩)).1.selected_item
        = (root.selected_item.1 - 1, root.selected_item.2))
  ∧ ((root.on_event (Event.keyDown ⟨Key.arrowRight⟩)).1.selected_item
        = (root.selected_item.1, root.selected_item.2 + 1))
  ∧ ((root.on_event (Event.keyDown ⟨Key.arrowLeft⟩)).1.selected_item
        = (root.selected_item.1, root.selected_item.2 - 1))
  ∧ (root.selected_item = (0, 0) →
        (root.on_event (Event.keyDown ⟨Key.arrowUp⟩)).1.selected_item = (0, 0)
      ∧ (root.on_event (Event.keyDown ⟨Key.arrowLeft⟩)).1.selected_item
          = (0, 0))
  ∧ (([Key.arrowRight, Key.arrowRight, Key.arrowLeft].foldl
        (fun (w : RootWidget) k => (w.on_event (Event.keyDown ⟨k⟩)).1)
        RootWidget.new).selected_item = (0, 1)) := by
  refine ⟨?_, ?_, ?_, ?_, ?_, ?_⟩
  · rw [root_on_keyDown]
    simp only [RootWidget.stepSelectedItem, saturating_add, Prod.mk.injEq]
    refine ⟨by omega, trivial⟩
  · rw [root_on_keyDown]
    rfl
  · rw [root_on_keyDown]
    simp only [RootWidget.stepSelectedItem, saturating_add, Prod.mk.injEq]
    refine ⟨trivial, by omega⟩
  · rw [root_on_keyDown]
    rfl
  · intro h00
    rw [root_on_keyDown, root_on_keyDown]
    simp [RootWidget.stepSelectedItem, saturating_sub, h00]
  · decide

/-- Witness for C2 at the freshly constructed root. -/
theorem keydown_moves_one_axis_saturating_witness :
    RootWidget.new.selected_item.1 < USIZE_MAX
  ∧ (RootWidget.new.on_event (Event.keyDown ⟨Key.arrowDown⟩)).1.selected_item
      = (RootWidget.new.selected_item.1 + 1, RootWidget.new.selected_item.2) :=
  ⟨by decide,
   (keydown_moves_one_axis_saturating RootWidget.new (by decide) (by decide)).1⟩

-- ### Claim C10

/-- C10: every key-down event, arrow or not, makes `RootWidget` submit a
CHANGE_SELECTED_ITEM broadcast carrying its current grid coordinate; for a
non-arrow key the coordinate is unchanged, so the submitted broadcast repeats
the existing selection. -/
theorem keydown_always_broadcasts (root : RootWidget) (k : Key) (s : String) :
    ((root.on_event (Event.keyDown ⟨k⟩)).2.submittedCommands
       = [Command.changeSelectedItem
            ((root.on_event (Event.keyDown ⟨k⟩)).1.selected_item)])
  ∧ ((root.on_event (Event.keyDown ⟨Key.other s⟩)).1.selected_item
       = root.selected_item)
  ∧ ((root.on_event (Event.keyDown ⟨Key.other s⟩)).2.submittedCommands
       = [Command.changeSelectedItem root.selected_item]) := by
  refine ⟨?_, ?_, ?_⟩
  · rw [root_on_keyDown]
  · rw [root_on_keyDown]
    rfl
  · rw [root_on_keyDown]
    rfl

-- ### Animation helper lemmas

theorem thumb_tick_selected_lt (t : Thumbnail) (i : Nat)
    (hs : t.selected = true) (hp : t.selected_progress < 5) :
    t.on_event (Event.animFrame i)
      = ({ t with selected_progress := t.selected_progress + 1 }, animCtx) := by
  simp [Thumbnail.on_event, hs, hp, animCtx]

theorem thumb_tick_selected_ge (t : Thumbnail) (i : Nat)
    (hs : t.selected = true) (hp : ¬ t.selected_progress < 5) :
    t.on_event (Event.animFrame i) = (t, Ctx.empty) := by
  simp [Thumbnail.on_event, hs, hp]

theorem thumb_tick_deselected_pos (t : Thumbnail) (i : Nat)
    (hs : t.selected = false) (hp : 0 < t.selected_progress) :
    t.on_event (Event.animFrame i)
      = ({ t with selected_progress := t.selected_progress - 1 }, animCtx) := by
  simp [Thumbnail.on_event, hs, hp, animCtx]

theorem thumb_tick_deselected_zero (t : Thumbnail) (i : Nat)
    (hs : t.selected = false) (hp : t.selected_progress = 0) :
    t.on_event (Event.animFrame i) = (t, Ctx.empty) := by
  simp [Thumbnail.on_event, hs, hp]

theorem animTick_selected_eq (t : Thumbnail) :
    (animTick t).selected = t.selected := by
  rcases hs : t.selected with _ | _
  · rcases Nat.eq_zero_or_pos t.selected_progress with hp | hp
    · rw [animTick, thumb_tick_deselected_zero t 0 hs hp]
      exact hs
    · rw [animTick, thumb_tick_deselected_pos t 0 hs hp]
      exact hs
  · by_cases hp : t.selected_progress < 5
    · rw [animTick, thumb_tick_selected_lt t 0 hs hp]
      exact hs
    · rw [animTick, thumb_tick_selected_ge t 0 hs hp]
      exact hs

theorem animTick_deselected (t : Thumbnail) (hs : t.selected = false) :
    animTick t = { t with selected_progress := t.selected_progress - 1 } := by
  rcases Nat.eq_zero_or_pos t.selected_progress with hp | hp
  · rw [animTick, thumb_tick_deselected_zero t 0 hs hp]
    cases t
    simp_all
  · rw [animTick, thumb_tick_deselected_pos t 0 hs hp]

theorem animTick_iter_deselected (t : Thumbnail) (n : Nat)
    (hs : t.selected = false) :
    animTick^[n] t = { t with selected_progress := t.selected_progress - n } := by
  induction n with
  | zero =>
      cases t
      simp
  | succ n ih =>
      rw [Function.iterate_succ_apply', ih,
          animTick_deselected { t with selected_progress := t.selected_progress - n } hs]
      simp
      omega

theorem animTick_selected_mono (t : Thumbnail) (hs : t.selected = true) :
    t.selected_progress ≤ (animTick t).selected_progress := by
  by_cases hp : t.selected_progress < 5
  · rw [animTick, thumb_tick_selected_lt t 0 hs hp]
    simp
  · rw [animTick, thumb_tick_selected_ge t 0 hs hp]

theorem animTick_iter_selected (t : Thumbnail) (n : Nat)
    (hs : t.selected = true) :
    (animTick^[n] t).selected = true
  ∧ t.selected_progress ≤ (animTick^[n] t).selected_progress := by
  induction n with
  | zero => exact ⟨hs, Nat.le_refl _⟩
  | succ n ih =>
      rw [Function.iterate_succ_apply']
      refine ⟨?_, ?_⟩
      · rw [animTick_selected_eq]
        exact ih.1
      · exact Nat.le_trans ih.2 (animTick_selected_mono _ ih.1)

theorem thumb_progress_bounded (t : Thumbnail) (e : Event)
    (h : t.selected_progress ≤ 5) : (t.on_event e).1.selected_progress ≤ 5 := by
  cases e with
  | command cmd =>
      cases cmd with
      | changeSelectedItem p =>
          obtain ⟨r, c⟩ := p
          simp only [Thumbnail.on_event]
          split_ifs <;> exact h
      | requestFocus => exact h
      | otherCmd s => exact h
  | animFrame i =>
      simp only [Thumbnail.on_event]
      split_ifs with h1 h2 h3 <;> simp <;> omega
  | promiseResult r => exact h
  | keyDown k => exact h
  | otherEvent => exact h

theorem thumb_tick_stops_iff (t : Thumbnail) (i : Nat)
    (h : t.selected_progress ≤ 5) :
    ((t.on_event (Event.animFrame i)).2.animFrameRequested = false)
      ↔ ((t.selected = true ∧ t.selected_progress = 5)
        ∨ (t.selected = false ∧ t.selected_progress = 0)) := by
  rcases hs : t.selected with _ | _
  · rcases Nat.eq_zero_or_pos t.selected_progress with hp | hp
    · rw [thumb_tick_deselected_zero t i hs hp]
      simp [Ctx.empty, hs, hp]
    · rw [thumb_tick_deselected_pos t i hs hp]
      simp [animCtx, Ctx.empty, hs]
      omega
  · by_cases hp : t.selected_progress < 5
    · rw [thumb_tick_selected_lt t i hs hp]
      simp [animCtx, Ctx.empty, hs]
      omega
    · rw [thumb_tick_selected_ge t i hs hp]
      simp [Ctx.empty, hs]
      omega

-- ### Claim C5

/-- C5: a delivered animation-frame tick increments `selected_progress` by
exactly 1 and requests another tick and a re-layout if and only if the node is
selected with progress < 5; it decrements by exactly 1 with the same requests
if and only if it is deselected with progress > 0; otherwise it changes
nothing and requests nothing.  A deselected node with progress = 5 reaches 0
after exactly 5 ticks, requesting a tick at each of them, and then stops. -/
theorem anim_frame_tick_behavior (t : Thumbnail) (i : Nat) :
    (t.on_event (Event.animFrame i)
        = ({ t with selected_progress := t.selected_progress + 1 }, animCtx)
      ↔ (t.selected = true ∧ t.selected_progress < 5))
  ∧ (t.on_event (Event.animFrame i)
        = ({ t with selected_progress := t.selected_progress - 1 }, animCtx)
      ↔ (t.selected = false ∧ 0 < t.selected_progress))
  ∧ (¬(t.selected = true ∧ t.selected_progress < 5) →
     ¬(t.selected = false ∧ 0 < t.selected_progress) →
       t.on_event (Event.animFrame i) = (t, Ctx.empty))
  ∧ (∀ u : Thumbnail, u.selected = false → u.selected_progress = 5 →
        (animTick^[5] u).selected_progress = 0
      ∧ (∀ m : Nat, m < 5 →
           ((animTick^[m] u).on_event (Event.animFrame i)).2 = animCtx)
      ∧ (animTick^[5] u).on_event (Event.animFrame i)
          = (animTick^[5] u, Ctx.empty)) := by
  have hne : animCtx ≠ Ctx.empty := by decide
  refine ⟨?_, ?_, ?_, ?_⟩
  · constructor
    · intro heq
      rcases hs : t.selected with _ | _
      · rcases Nat.eq_zero_or_pos t.selected_progress with hp | hp
        · rw [thumb_tick_deselected_zero t i hs hp] at heq
          exact absurd (congrArg Prod.snd heq).symm hne
        · rw [thumb_tick_deselected_pos t i hs hp] at heq
          have h5 : t.selected_progress - 1 = t.selected_progress + 1 :=
            congrArg (fun x => x.1.selected_progress) heq
          omega
      · by_cases hp : t.selected_progress < 5
        · exact ⟨rfl, hp⟩
        · rw [thumb_tick_selected_ge t i hs hp] at heq
          exact absurd (congrArg Prod.snd heq).symm hne
    · rintro ⟨hs, hp⟩
      exact thumb_tick_selected_lt t i hs hp
  · constructor
    · intro heq
      rcases hs : t.selected with _ | _
      · rcases Nat.eq_zero_or_pos t.selected_progress with hp | hp
        · rw [thumb_tick_deselected_zero t i hs hp] at heq
          exact absurd (congrArg Prod.snd heq).symm hne
        · exact ⟨rfl, hp⟩
      · by_cases hp : t.selected_progress < 5
        · rw [thumb_tick_selected_lt t i hs hp] at heq
          have h5 : t.selected_progress + 1 = t.selected_progress - 1 :=
            congrArg (fun x => x.1.selected_progress) heq
          omega
        · rw [thumb_tick_selected_ge t i hs hp] at heq
          exact absurd (congrArg Prod.snd heq).symm hne
    · rintro ⟨hs, hp⟩
      exact thumb_tick_deselected_pos t i hs hp
  · intro h1 h2
    rcases hs : t.selected with _ | _
    · have hp : t.selected_progress = 0 := by
        by_contra hp0
        exact h2 ⟨hs, Nat.pos_of_ne_zero hp0⟩
      exact thumb_tick_deselected_zero t i hs hp
    · have hp : ¬ t.selected_progress < 5 := fun hlt => h1 ⟨hs, hlt⟩
      exact thumb_tick_selected_ge t i hs hp
  · intro u hs hp
    have hiter : ∀ m : Nat, animTick^[m] u
        = { u with selected_progress := u.selected_progress - m } :=
      fun m => animTick_iter_deselected u m hs
    refine ⟨?_, ?_, ?_⟩
    · rw [hiter 5, hp]
    · intro m hm
      rw [thumb_tick_deselected_pos (animTick^[m] u) i
            (by rw [hiter m]; exact hs) (by rw [hiter m]; simp [hp]; omega)]
    · exact thumb_tick_deselected_zero (animTick^[5] u) i
        (by rw [hiter 5]; exact hs) (by rw [hiter 5]; simp [hp])

/-- Witness for C5's scenario clause: a concrete deselected thumbnail with
progress 5 reaches 0 after 5 ticks. -/
theorem anim_frame_tick_behavior_witness :
    (⟨0, 0, "u", false, 5⟩ : Thumbnail).selected = false
  ∧ (⟨0, 0, "u", false, 5⟩ : Thumbnail).selected_progress = 5
  ∧ (animTick^[5] (⟨0, 0, "u", false, 5⟩ : Thumbnail)).selected_progress = 0 :=
  ⟨rfl, rfl,
   ((anim_frame_tick_behavior ⟨0, 0, "u", false, 5⟩ 0).2.2.2
      ⟨0, 0, "u", false, 5⟩ rfl rfl).1⟩

-- ### Claim C6

/-- C6: starting from progress in [0, 5], progress stays in [0, 5] after
every event; across ticks, progress is non-decreasing while the node remains
selected and non-increasing while it remains deselected (ticks never change
`selected`); and a tick requests no further frame exactly when progress sits
at the bound matching the current `selected` value. -/
theorem anim_progress_invariants (t : Thumbnail) (e : Event) (i n : Nat)
    (hb : t.selected_progress ≤ 5) :
    ((t.on_event e).1.selected_progress ≤ 5)
  ∧ (t.selected = true →
       ((animTick^[n] t).selected = true
      ∧ ∀ m : Nat, m ≤ n →
          (animTick^[m] t).selected_progress
            ≤ (animTick^[n] t).selected_progress))
  ∧ (t.selected = false →
       ((animTick^[n] t).selected = false
      ∧ ∀ m : Nat, m ≤ n →
          (animTick^[n] t).selected_progress
            ≤ (animTick^[m] t).selected_progress))
  ∧ (((t.on_event (Event.animFrame i)).2.animFrameRequested = false)
      ↔ ((t.selected = true ∧ t.selected_progress = 5)
        ∨ (t.selected = false ∧ t.selected_progress = 0))) := by
  refine ⟨thumb_progress_bounded t e hb, ?_, ?_, thumb_tick_stops_iff t i hb⟩
  · intro hs
    refine ⟨(animTick_iter_selected t n hs).1, ?_⟩
    intro m hm
    obtain ⟨k, rfl⟩ := Nat.exists_eq_add_of_le hm
    rw [Nat.add_comm m k, Function.iterate_add_apply]
    exact (animTick_iter_selected (animTick^[m] t) k
      (animTick_iter_selected t m hs).1).2
  · intro hs
    constructor
    · rw [animTick_iter_deselected t n hs]
      exact hs
    · intro m hm
      rw [animTick_iter_deselected t n hs, animTick_iter_deselected t m hs]
      simp
      omega

/-- Witness for C6 at a concrete selected thumbnail with progress 3. -/
theorem anim_progress_invariants_witness :
    (⟨1, 2, "u", true, 3⟩ : Thumbnail).selected_progress ≤ 5
  ∧ ((⟨1, 2, "u", true, 3⟩ : Thumbnail).on_event
       (Event.animFrame 0)).1.selected_progress ≤ 5 :=
  ⟨by decide,
   (anim_progress_invariants ⟨1, 2, "u", true, 3⟩ (Event.animFrame 0) 0 1
      (by decide)).1⟩

-- ### Claim C7 (counterexample and amended statement)

/-- C7 counterexample: a thumbnail at (0,0) that is already selected receives
the identical CHANGE_SELECTED_ITEM(0,0) broadcast again.  The claim says this
delivery causes no side effect, but the handler re-requests an animation
frame, a re-layout and a pan (while indeed leaving the state unchanged). -/
theorem repeated_broadcast_counterexample :
    ((⟨0, 0, "u", true, 5⟩ : Thumbnail).on_event
        (Event.command (Command.changeSelectedItem (0, 0)))).1
      = (⟨0, 0, "u", true, 5⟩ : Thumbnail)
  ∧ ¬(((⟨0, 0, "u", true, 5⟩ : Thumbnail).on_event
        (Event.command (Command.changeSelectedItem (0, 0)))).2
      = Ctx.empty) := by
  refine ⟨rfl, ?_⟩
  decide

/-- C7 (amended): a broadcast whose coordinate does not match a node that is
already deselected is a complete no-op (state unchanged, nothing requested);
a matching broadcast at a node that is already selected leaves the state
unchanged but still re-requests an animation tick, a re-layout and a pan.
Hence delivering the identical broadcast twice has the same effect on node
state as delivering it once, though the matching node re-issues its
requests. -/
theorem repeated_broadcast_amended (t : Thumbnail) (r c : Nat) :
    ((r, c) ≠ (t.row, t.column) → t.selected = false →
       t.on_event (Event.command (Command.changeSelectedItem (r, c)))
         = (t, Ctx.empty))
  ∧ ((r, c) = (t.row, t.column) → t.selected = true →
       t.on_event (Event.command (Command.changeSelectedItem (r, c)))
         = (t, selectCtx))
  ∧ (broadcastThumb (r, c) (broadcastThumb (r, c) t)
       = broadcastThumb (r, c) t) := by
  refine ⟨?_, ?_, ?_⟩
  · intro hne hs
    simp [Thumbnail.on_event, hne, hs]
  · intro heq hs
    have ht : { t with selected := true } = t := by
      cases t
      simp_all
    simp [Thumbnail.on_event, heq, ht, selectCtx, Ctx.empty]
  · by_cases heq : (r, c) = (t.row, t.column)
    · have h1 : broadcastThumb (r, c) t = { t with selected := true } := by
        simp [broadcastThumb, Thumbnail.on_event, heq]
      rw [h1]
      simp [broadcastThumb, Thumbnail.on_event, heq]
    · rcases hs : t.selected with _ | _
      · have h1 : broadcastThumb (r, c) t = t := by
          simp [broadcastThumb, Thumbnail.on_event, heq, hs]
        rw [h1, h1]
      · have h1 : broadcastThumb (r, c) t = { t with selected := false } := by
          simp [broadcastThumb, Thumbnail.on_event, heq, hs]
        rw [h1]
        simp [broadcastThumb, Thumbnail.on_event, heq]

/-- Witness for C7 (amended) at a deselected thumbnail that does not match. -/
theorem repeated_broadcast_amended_witness :
    ((1, 1) : Nat × Nat) ≠ (((⟨0, 0, "u", false, 0⟩ : Thumbnail)).row,
        ((⟨0, 0, "u", false, 0⟩ : Thumbnail)).column)
  ∧ (⟨0, 0, "u", false, 0⟩ : Thumbnail).selected = false
  ∧ (⟨0, 0, "u", false, 0⟩ : Thumbnail).on_event
      (Event.command (Command.changeSelectedItem (1, 1)))
      = (⟨0, 0, "u", false, 0⟩, Ctx.empty) :=
  ⟨by decide, rfl,
   (repeated_broadcast_amended ⟨0, 0, "u", false, 0⟩ 1 1).1 (by decide) rfl⟩

-- ### Claim C3

/-- C3: a completion event matching RootWidget's own slot with an n-record
payload replaces the flex content (dropping the spinner placeholder) with
exactly n ContentSet children in payload order, with row indices 0..n-1, each
new child starting as title label plus spinner placeholder, and signals
skip_child for the current pass. -/
theorem root_resolution_builds_rows (root : RootWidget) (tok : Nat)
    (records : List ContentSetMetadata)
    (h : root.children_promise = some tok) :
    ((root.on_event (Event.promiseResult
        ⟨tok, PromisePayload.rows records⟩)).1.children.length
      = records.length)
  ∧ (∀ i : Nat, ∀ m : ContentSetMetadata, records[i]? = some m →
       (root.on_event (Event.promiseResult
          ⟨tok, PromisePayload.rows records⟩)).1.children[i]?
         = some (RootChild.contentSet (ContentSet.new i m)))
  ∧ (∀ i : Nat, ∀ m : ContentSetMetadata,
       (ContentSet.new i m).children
         = [RowChild.label m.title, RowChild.spinner])
  ∧ (RootChild.spinner ∉
       (root.on_event (Event.promiseResult
          ⟨tok, PromisePayload.rows records⟩)).1.children)
  ∧ ((root.on_event (Event.promiseResult
        ⟨tok, PromisePayload.rows records⟩)).2.childSkipped = true) := by
  have hres : root.on_event (Event.promiseResult
      ⟨tok, PromisePayload.rows records⟩)
    = ({ root with children :=
          (records.enum.map
            (fun p => RootChild.contentSet (ContentSet.new p.1 p.2))) },
       { Ctx.empty with childSkipped := true }) := by
    simp [RootWidget.on_event, PromiseResult.tryGetRows, h]
  refine ⟨?_, ?_, ?_, ?_, ?_⟩
  · rw [hres]
    simp
  · intro i m hm
    obtain ⟨hi, hget⟩ := List.getElem?_eq_some.mp hm
    rw [hres]
    have hlen : i < (records.enum.map
        (fun p => RootChild.contentSet (ContentSet.new p.1 p.2))).length := by
      simpa using hi
    rw [List.getElem?_eq_getElem hlen]
    simp [List.getElem_enum, hget]
  · intro i m
    rfl
  · rw [hres]
    intro hmem
    simp only [List.mem_map] at hmem
    obtain ⟨p, _, hp⟩ := hmem
    exact RootChild.noConfusion hp
  · rw [hres]

/-- Witness for C3 with a three-record payload. -/
theorem root_resolution_builds_rows_witness :
    ({ RootWidget.new with children_promise := some 3 }
        : RootWidget).children_promise = some 3
  ∧ (({ RootWidget.new with children_promise := some 3 }
        : RootWidget).on_event
      (Event.promiseResult ⟨3, PromisePayload.rows
        [⟨"a", "ra"⟩, ⟨"b", "rb"⟩, ⟨"c", "rc"⟩]⟩)).1.children.length
      = ([⟨"a", "ra"⟩, ⟨"b", "rb"⟩, ⟨"c", "rc"⟩]
          : List ContentSetMetadata).length :=
  ⟨rfl, (root_resolution_builds_rows
     { RootWidget.new with children_promise := some 3 } 3
     [⟨"a", "ra"⟩, ⟨"b", "rb"⟩, ⟨"c", "rc"⟩] rfl).1⟩

-- ### Claim C4

/-- C4: a completion event matching a ContentSet's own slot with an n-url
payload replaces its flex content with the title label followed by the row of
exactly n thumbnails at columns 0..n-1 in payload order, each carrying the
ContentSet's row index, and signals skip_child for the current pass. -/
theorem row_resolution_builds_thumbnails (cs : ContentSet) (tok : Nat)
    (urls : List String) (h : cs.children_promise = some tok) :
    ((cs.on_event (Event.promiseResult
        ⟨tok, PromisePayload.tiles urls⟩)).1.children.head?
      = some (RowChild.label cs.data.title))
  ∧ ((cs.on_event (Event.promiseResult
        ⟨tok, PromisePayload.tiles urls⟩)).1.children.length = 2)
  ∧ ((cs.on_event (Event.promiseResult
        ⟨tok, PromisePayload.tiles urls⟩)).1.thumbnails.length = urls.length)
  ∧ (∀ i : Nat, ∀ u : String, urls[i]? = some u →
       (cs.on_event (Event.promiseResult
          ⟨tok, PromisePayload.tiles urls⟩)).1.thumbnails[i]?
         = some (Thumbnail.new cs.row i u))
  ∧ ((cs.on_event (Event.promiseResult
        ⟨tok, PromisePayload.tiles urls⟩)).2.childSkipped = true) := by
  have hres : cs.on_event (Event.promiseResult
      ⟨tok, PromisePayload.tiles urls⟩)
    = ({ cs with children :=
          [RowChild.label cs.data.title,
           RowChild.clipbox (urls.enum.map
             (fun p => Thumbnail.new cs.row p.1 p.2))] },
       { Ctx.empty with childSkipped := true }) := by
    simp [ContentSet.on_event, PromiseResult.tryGetTiles, h]
  have hthumbs : (cs.on_event (Event.promiseResult
      ⟨tok, PromisePayload.tiles urls⟩)).1.thumbnails
    = urls.enum.map (fun p => Thumbnail.new cs.row p.1 p.2) := by
    rw [hres]
    simp [ContentSet.thumbnails, RowChild.thumbnails]
  refine ⟨?_, ?_, ?_, ?_, ?_⟩
  · rw [hres]
    rfl
  · rw [hres]
    rfl
  · rw [hthumbs]
    simp
  · intro i u hu
    obtain ⟨hi, hget⟩ := List.getElem?_eq_some.mp hu
    rw [hthumbs]
    have hlen : i < (urls.enum.map
        (fun p => Thumbnail.new cs.row p.1 p.2)).length := by
      simpa using hi
    rw [List.getElem?_eq_getElem hlen]
    simp [List.getElem_enum, hget]
  · rw [hres]

/-- Witness for C4 with a five-url payload. -/
theorem row_resolution_builds_thumbnails_witness :
    ({ row := 2, data := ⟨"T", "R"⟩, children_promise := some 7,
       children := [RowChild.label "T", RowChild.spinner] }
        : ContentSet).children_promise = some 7
  ∧ (({ row := 2, data := ⟨"T", "R"⟩, children_promise := some 7,
        children := [RowChild.label "T", RowChild.spinner] }
        : ContentSet).on_event
      (Event.promiseResult ⟨7, PromisePayload.tiles
        ["a", "b", "c", "d", "e"]⟩)).1.thumbnails.length
      = (["a", "b", "c", "d", "e"] : List String).length :=
  ⟨rfl, (row_resolution_builds_thumbnails
     { row := 2, data := ⟨"T", "R"⟩, children_promise := some 7,
       children := [RowChild.label "T", RowChild.spinner] } 7
     ["a", "b", "c", "d", "e"] rfl).2.2.1⟩

-- ### Broadcast dispatch lemmas (towards C1)

theorem rowChild_thumbs_map (c : RowChild) (e : Event) :
    ((c.on_event e).1).thumbnails
      = c.thumbnails.map (fun t => (t.on_event e).1) := by
  cases c with
  | label t => rfl
  | spinner => rfl
  | clipbox thumbs =>
      simp [RowChild.on_event, RowChild.thumbnails, List.map_map]

theorem foldr_thumbs_map (l : List RowChild) (e : Event) :
    ((l.map (fun c => (c.on_event e).1)).foldr
        (fun c acc => c.thumbnails ++ acc) [])
      = (l.foldr (fun c acc => c.thumbnails ++ acc) []).map
          (fun t => (t.on_event e).1) := by
  induction l with
  | nil => rfl
  | cons c l ih =>
      simp only [List.map_cons, List.foldr_cons, List.map_append, ih,
        rowChild_thumbs_map]

theorem contentSet_thumbs_map_cmd (cs : ContentSet) (cmd : Command) :
    ((cs.on_event (Event.command cmd)).1).thumbnails
      = cs.thumbnails.map (fun t => (t.on_event (Event.command cmd)).1) := by
  show ((cs.forwardToChildren (Event.command cmd) Ctx.empty).1).thumbnails = _
  simp only [ContentSet.forwardToChildren, ContentSet.thumbnails,
    List.map_map]
  exact foldr_thumbs_map cs.children (Event.command cmd)

theorem rootChild_thumbs_map_cmd (c : RootChild) (cmd : Command) :
    ((c.on_event (Event.command cmd)).1).thumbnails
      = c.thumbnails.map (fun t => (t.on_event (Event.command cmd)).1) := by
  cases c with
  | spinner => rfl
  | contentSet cs =>
      simp only [RootChild.on_event, RootChild.thumbnails]
      exact contentSet_thumbs_map_cmd cs cmd

theorem foldr_rootThumbs_map (l : List RootChild) (cmd : Command) :
    ((l.map (fun c => (c.on_event (Event.command cmd)).1)).foldr
        (fun c acc => c.thumbnails ++ acc) [])
      = (l.foldr (fun c acc => c.thumbnails ++ acc) []).map
          (fun t => (t.on_event (Event.command cmd)).1) := by
  induction l with
  | nil => rfl
  | cons c l ih =>
      simp only [List.map_cons, List.foldr_cons, List.map_append, ih,
        rootChild_thumbs_map_cmd]

theorem root_thumbs_map_broadcast (root : RootWidget) (p : Nat × Nat) :
    ((root.on_event (Event.command
        (Command.changeSelectedItem p))).1).allThumbnails
      = root.allThumbnails.map (broadcastThumb p) := by
  show ((root.forwardToChildren (Event.command
      (Command.changeSelectedItem p)) Ctx.empty).1).allThumbnails = _
  simp only [RootWidget.forwardToChildren, RootWidget.allThumbnails,
    List.map_map]
  exact foldr_rootThumbs_map root.children (Command.changeSelectedItem p)

theorem broadcastThumb_cases (p : Nat × Nat) (t : Thumbnail) :
    (broadcastThumb p t).row = t.row
  ∧ (broadcastThumb p t).column = t.column
  ∧ ((broadcastThumb p t).selected = true ↔ p = (t.row, t.column)) := by
  obtain ⟨r, c⟩ := p
  by_cases heq : (r, c) = (t.row, t.column)
  · simp [broadcastThumb, Thumbnail.on_event, heq]
  · rcases hs : t.selected with _ | _
    · simp [broadcastThumb, Thumbnail.on_event, heq, hs]
    · simp [broadcastThumb, Thumbnail.on_event, heq, hs]

theorem countSelected_map_broadcast (ts : List Thumbnail) (p : Nat × Nat)
    (hd : ts.Pairwise (fun a b => (a.row, a.column) ≠ (b.row, b.column))) :
    countSelected (ts.map (broadcastThumb p)) ≤ 1 := by
  induction ts with
  | nil => simp [countSelected]
  | cons a ts ih =>
      obtain ⟨ha, hd'⟩ := List.pairwise_cons.mp hd
      by_cases heq : p = (a.row, a.column)
      · have hsel : (broadcastThumb p a).selected = true :=
          (broadcastThumb_cases p a).2.2.mpr heq
        have htail : (ts.map (broadcastThumb p)).filter
            (fun t => t.selected) = [] := by
          apply List.filter_eq_nil_iff.mpr
          intro x hx
          rw [List.mem_map] at hx
          obtain ⟨b, hb, rfl⟩ := hx
          have hne : p ≠ (b.row, b.column) := by
            rw [heq]
            exact ha b hb
          simp only [(broadcastThumb_cases p b).2.2]
          simpa using hne
        simp [countSelected, List.filter_cons, hsel, htail]
      · have hsel : (broadcastThumb p a).selected = false := by
          rcases hb : (broadcastThumb p a).selected with _ | _
          · rfl
          · exact absurd ((broadcastThumb_cases p a).2.2.mp hb) heq
        have := ih hd'
        simp only [countSelected, List.map_cons, List.filter_cons, hsel] at *
        simpa using this

-- ### Claim C1

/-- C1: after a CHANGE_SELECTED_ITEM broadcast carrying (r,c) is dispatched
through the tree to every thumbnail, a thumbnail is selected iff its fixed
(row, column) identity equals (r,c); hence, when thumbnail identities are
pairwise distinct, at most one thumbnail is selected after the broadcast
settles. -/
theorem broadcast_selects_exactly_matching (root : RootWidget) (r c : Nat)
    (_hinit : countSelected root.allThumbnails ≤ 1) :
    (∀ t ∈ (root.on_event (Event.command
        (Command.changeSelectedItem (r, c)))).1.allThumbnails,
       (t.selected = true ↔ (t.row, t.column) = (r, c)))
  ∧ (root.allThumbnails.Pairwise
        (fun a b => (a.row, a.column) ≠ (b.row, b.column)) →
      countSelected (root.on_event (Event.command
        (Command.changeSelectedItem (r, c)))).1.allThumbnails ≤ 1) := by
  rw [root_thumbs_map_broadcast]
  constructor
  · intro t ht
    rw [List.mem_map] at ht
    obtain ⟨u, hu, rfl⟩ := ht
    obtain ⟨hrow, hcol, hsel⟩ := broadcastThumb_cases (r, c) u
    rw [hrow, hcol, hsel]
    exact eq_comm
  · intro hd
    exact countSelected_map_broadcast _ _ hd

/-- Witness for C1 on a small concrete tree of two thumbnails. -/
theorem broadcast_selects_exactly_matching_witness :
    countSelected (RootWidget.allThumbnails
      ⟨some 0, [RootChild.contentSet ⟨0, ⟨"T", "R"⟩, some 1,
        [RowChild.label "T", RowChild.clipbox
          [Thumbnail.new 0 0 "a", Thumbnail.new 0 1 "b"]]⟩], (0, 1)⟩) ≤ 1
  ∧ ∀ t ∈ (RootWidget.on_event
      ⟨some 0, [RootChild.contentSet ⟨0, ⟨"T", "R"⟩, some 1,
        [RowChild.label "T", RowChild.clipbox
          [Thumbnail.new 0 0 "a", Thumbnail.new 0 1 "b"]]⟩], (0, 1)⟩
      (Event.command (Command.changeSelectedItem (0, 1)))).1.allThumbnails,
      (t.selected = true ↔ (t.row, t.column) = (0, 1)) :=
  ⟨by decide,
   (broadcast_selects_exactly_matching
     ⟨some 0, [RootChild.contentSet ⟨0, ⟨"T", "R"⟩, some 1,
       [RowChild.label "T", RowChild.clipbox
         [Thumbnail.new 0 0 "a", Thumbnail.new 0 1 "b"]]⟩], (0, 1)⟩
     0 1 (by decide)).1⟩

-- ### Completion-event helper lemmas (towards C8 and C9)

theorem contentSet_promise_idem (cs : ContentSet) (r : PromiseResult) :
    ((cs.on_event (Event.promiseResult r)).1.on_event
        (Event.promiseResult r)).1
      = (cs.on_event (Event.promiseResult r)).1 := by
  obtain ⟨row, data, cp, children⟩ := cs
  cases htry : r.tryGetTiles cp with
  | none =>
      have h1 := contentSet_on_promiseResult_none ⟨row, data, cp, children⟩
        r htry
      rw [h1]
      show (ContentSet.on_event ⟨row, data, cp, children⟩
        (Event.promiseResult r)).1 = ⟨row, data, cp, children⟩
      rw [h1]
  | some urls =>
      simp [ContentSet.on_event, htry]

theorem rootChild_promise_idem (c : RootChild) (r : PromiseResult) :
    ((c.on_event (Event.promiseResult r)).1.on_event
        (Event.promiseResult r)).1
      = (c.on_event (Event.promiseResult r)).1 := by
  cases c with
  | spinner => rfl
  | contentSet cs =>
      simp only [RootChild.on_event]
      exact congrArg RootChild.contentSet (contentSet_promise_idem cs r)

theorem root_on_promiseResult_none (root : RootWidget) (r : PromiseResult)
    (htry : r.tryGetRows root.children_promise = none) :
    root.on_event (Event.promiseResult r)
      = root.forwardToChildren (Event.promiseResult r) Ctx.empty := by
  simp [RootWidget.on_event, htry]

theorem root_promise_idem (root : RootWidget) (r : PromiseResult) :
    ((root.on_event (Event.promiseResult r)).1.on_event
        (Event.promiseResult r)).1
      = (root.on_event (Event.promiseResult r)).1 := by
  obtain ⟨cp, children, sel⟩ := root
  cases htry : r.tryGetRows cp with
  | some records => simp [RootWidget.on_event, htry]
  | none =>
      simp only [RootWidget.on_event, RootWidget.forwardToChildren, htry,
        List.map_map]
      simp only [RootWidget.mk.injEq, List.map_map, true_and, and_true]
      apply List.map_congr_left
      intro c _
      exact rootChild_promise_idem c r

theorem contentSet_forward_children (cs : ContentSet) (e : Event) (a : Ctx) :
    (cs.forwardToChildren e a).1.children
      = cs.children.map (fun c => (c.on_event e).1) := by
  simp [ContentSet.forwardToChildren, List.map_map]

theorem root_forward_fst (root : RootWidget) (e : Event) (a : Ctx) :
    (root.forwardToChildren e a).1
      = { root with children :=
            root.children.map (fun c => (c.on_event e).1) } := by
  simp [RootWidget.forwardToChildren, List.map_map]

theorem root_forward_children (root : RootWidget) (e : Event) (a : Ctx) :
    (root.forwardToChildren e a).1.children
      = root.children.map (fun c => (c.on_event e).1) := by
  rw [root_forward_fst]

-- ### Claim C8

/-- C8: a node still showing its placeholder keeps exactly that placeholder
under every event other than a completion matching its own slot (the real
subtree appears at most once, and never early), and delivering the same
completion event twice leaves the node in the same state as delivering it
once — children are not double-appended. -/
theorem placeholder_replace_once_idempotent (root : RootWidget)
    (cs : ContentSet) (result : PromiseResult) (e : Event) (title : String)
    (hcs : cs.children = [RowChild.label title, RowChild.spinner])
    (hnm : ∀ r : PromiseResult, e = Event.promiseResult r →
        r.tryGetTiles cs.children_promise = none)
    (hroot : root.children = [RootChild.spinner])
    (hrnm : ∀ r : PromiseResult, e = Event.promiseResult r →
        r.tryGetRows root.children_promise = none) :
    ((cs.on_event e).1.children = cs.children)
  ∧ ((root.on_event e).1.children = root.children)
  ∧ (((cs.on_event (Event.promiseResult result)).1.on_event
        (Event.promiseResult result)).1
      = (cs.on_event (Event.promiseResult result)).1)
  ∧ (((root.on_event (Event.promiseResult result)).1.on_event
        (Event.promiseResult result)).1
      = (root.on_event (Event.promiseResult result)).1) := by
  refine ⟨?_, ?_, contentSet_promise_idem cs result,
    root_promise_idem root result⟩
  · cases e with
    | promiseResult r =>
        rw [contentSet_on_promiseResult_none cs r (hnm r rfl)]
    | keyDown k =>
        show (cs.forwardToChildren (Event.keyDown k) Ctx.empty).1.children = _
        rw [contentSet_forward_children, hcs]
        rfl
    | command cmd =>
        show (cs.forwardToChildren (Event.command cmd) Ctx.empty).1.children
          = _
        rw [contentSet_forward_children, hcs]
        rfl
    | animFrame i =>
        show (cs.forwardToChildren (Event.animFrame i) Ctx.empty).1.children
          = _
        rw [contentSet_forward_children, hcs]
        rfl
    | otherEvent =>
        show (cs.forwardToChildren Event.otherEvent Ctx.empty).1.children = _
        rw [contentSet_forward_children, hcs]
        rfl
  · cases e with
    | promiseResult r =>
        rw [root_on_promiseResult_none root r (hrnm r rfl),
          root_forward_children, hroot]
        rfl
    | keyDown k =>
        rw [root_on_keyDown]
    | command cmd =>
        cases cmd with
        | changeSelectedItem p =>
            show (root.forwardToChildren
              (Event.command (Command.changeSelectedItem p))
              Ctx.empty).1.children = _
            rw [root_forward_children, hroot]
            rfl
        | requestFocus =>
            show (root.forwardToChildren (Event.command Command.requestFocus)
              { Ctx.empty with focusRequested := true }).1.children = _
            rw [root_forward_children, hroot]
            rfl
        | otherCmd s =>
            show (root.forwardToChildren
              (Event.command (Command.otherCmd s)) Ctx.empty).1.children = _
            rw [root_forward_children, hroot]
            rfl
    | animFrame i =>
        show (root.forwardToChildren (Event.animFrame i)
          Ctx.empty).1.children = _
        rw [root_forward_children, hroot]
        rfl
    | otherEvent =>
        show (root.forwardToChildren Event.otherEvent
          Ctx.empty).1.children = _
        rw [root_forward_children, hroot]
        rfl

/-- Witness for C8: a fresh ContentSet placeholder survives an unrelated
event unchanged. -/
theorem placeholder_replace_once_idempotent_witness :
    (ContentSet.new 0 ⟨"T", "R"⟩).children
      = [RowChild.label "T", RowChild.spinner]
  ∧ ((ContentSet.new 0 ⟨"T", "R"⟩).on_event Event.otherEvent).1.children
      = (ContentSet.new 0 ⟨"T", "R"⟩).children :=
  ⟨rfl, (placeholder_replace_once_idempotent RootWidget.new
     (ContentSet.new 0 ⟨"T", "R"⟩) ⟨0, PromisePayload.rows []⟩
     Event.otherEvent "T" rfl (fun _ h => Event.noConfusion h) rfl
     (fun _ h => Event.noConfusion h)).1⟩

-- ### Claim C9

/-- C9: a completion event whose tag does not match a node's own slot leaves
that node's own state untouched — for ContentSet it is a complete no-op, and
for RootWidget the promise token and selected_item are unchanged while the
event is forwarded to the children; if no slot in the whole tree matches, the
entire root state is unchanged. -/
theorem nonmatching_completion_passthrough (root : RootWidget)
    (cs : ContentSet) (result : PromiseResult)
    (hcs : result.tryGetTiles cs.children_promise = none)
    (hroot : result.tryGetRows root.children_promise = none) :
    (cs.on_event (Event.promiseResult result) = (cs, Ctx.empty))
  ∧ ((root.on_event (Event.promiseResult result)).1.children_promise
      = root.children_promise)
  ∧ ((root.on_event (Event.promiseResult result)).1.selected_item
      = root.selected_item)
  ∧ ((root.on_event (Event.promiseResult result)).1.children
      = root.children.map
          (fun c => (c.on_event (Event.promiseResult result)).1))
  ∧ ((∀ d : ContentSet, RootChild.contentSet d ∈ root.children →
        result.tryGetTiles d.children_promise = none) →
      (root.on_event (Event.promiseResult result)).1 = root) := by
  have hfwd := root_on_promiseResult_none root result hroot
  refine ⟨contentSet_on_promiseResult_none cs result hcs, ?_, ?_, ?_, ?_⟩
  · rw [hfwd, root_forward_fst]
  · rw [hfwd, root_forward_fst]
  · rw [hfwd, root_forward_children]
  · intro hall
    have hpt : ∀ c ∈ root.children,
        (RootChild.on_event c (Event.promiseResult result)).1 = c := by
      intro c hcmem
      cases c with
      | spinner => rfl
      | contentSet d =>
          simp only [RootChild.on_event]
          rw [contentSet_on_promiseResult_none d result (hall d hcmem)]
    have hmap : root.children.map
        (fun c => (c.on_event (Event.promiseResult result)).1)
        = root.children := by
      calc root.children.map
            (fun c => (c.on_event (Event.promiseResult result)).1)
          = root.children.map id := List.map_congr_left hpt
        _ = root.children := List.map_id root.children
    rw [hfwd, root_forward_fst, hmap]

/-- Witness for C9: a completion tagged for an empty slot passes through a
fresh ContentSet untouched. -/
theorem nonmatching_completion_passthrough_witness :
    (⟨0, PromisePayload.rows []⟩ : PromiseResult).tryGetTiles
        (ContentSet.new 0 ⟨"T", "R"⟩).children_promise = none
  ∧ (ContentSet.new 0 ⟨"T", "R"⟩).on_event
      (Event.promiseResult ⟨0, PromisePayload.rows []⟩)
      = (ContentSet.new 0 ⟨"T", "R"⟩, Ctx.empty) :=
  ⟨rfl, (nonmatching_completion_passthrough RootWidget.new
     (ContentSet.new 0 ⟨"T", "R"⟩) ⟨0, PromisePayload.rows []⟩
     rfl rfl).1⟩
